import Mathlib

/-!
Shallow embedding of the `engine/` module of the TigrisSystem solo-heist
resolution engine (`src/engine/{types,balance,items,minigames,core,repo}.rs`).

Modelling conventions:
* Rust `f32` values are modelled as exact rationals (`ℚ`); floating-point
  rounding error is outside that model. Where a property turns on rounding
  order (the order-independence of `aggregate`), the `...F32` definitions
  model IEEE-754 binary32 round-to-nearest-even explicitly.
* Rust machine integers are modelled as `ℤ`/`ℕ`; the saturating and
  truncating casts that appear in the source (`as i64`, `as u32`,
  `saturating_add`, `.round()`) are modelled explicitly where they occur.
* The ambient random source is made explicit: `resolve_solo` receives the
  success roll (a value in `[0,100)`) and the drawn reward as parameters,
  matching the spec's "deterministic given a fixed random draw".
-/

namespace Tigris

/-- Rust `x.clamp(lo, hi)`: `lo` if `x < lo`, `hi` if `x > hi`, else `x`. -/
def rclamp {α : Type} [LinearOrder α] (x lo hi : α) : α :=
  if x < lo then lo else if x > hi then hi else x

/-- Rust `f32::round`: round half away from zero, yielding an integer. -/
def rustRound (q : ℚ) : ℤ :=
  if q < 0 then -⌊-q + 1/2⌋ else ⌊q + 1/2⌋

/-- Rust `f32 as i64`: truncate toward zero, saturating at the `i64` bounds. -/
def rustAsI64 (q : ℚ) : ℤ :=
  max (-(2 ^ 63)) (min (2 ^ 63 - 1) (if q < 0 then ⌈q⌉ else ⌊q⌋))

/-- Rust cast of a (rounded, hence integral) float to `u32`: negative values
saturate to 0, large values to `u32::MAX`. -/
def rustIntAsU32 (z : ℤ) : ℕ :=
  min z.toNat (2 ^ 32 - 1)

/-- Rust cast of a (rounded, hence integral) float to `u64`. -/
def rustIntAsU64 (z : ℤ) : ℕ :=
  min z.toNat (2 ^ 64 - 1)

/-- Rust cast of a rounded float to `i32`, saturating at the `i32` bounds. -/
def rustIntAsI32 (z : ℤ) : ℤ :=
  max (-(2 ^ 31)) (min (2 ^ 31 - 1) z)

/-- `engine/types.rs`: the 8 play-style modes. -/
inductive CrimeMode
  | Standard | Szybki | Ostrozny | Shadow | Hardcore | Ryzykowny | Planowany | Szalony
  deriving DecidableEq, Repr

/-- `engine/types.rs`: the 4 ordered risk tiers. -/
inductive Risk
  | Low | Medium | High | Hardcore
  deriving DecidableEq, Repr

/-- `engine/types.rs`: minigame kinds. -/
inductive MinigameKind
  | Qte | Simon
  deriving DecidableEq, Repr

/-- `engine/types.rs`: minigame outcome (`Partial` carries ms from ideal). -/
inductive MinigameResult
  | NotPlayed | Success | Partial (diff : ℤ) | Fail
  deriving DecidableEq, Repr

/-- `engine/types.rs`: the 6 item keys. -/
inductive ItemKey
  | HackerLaptop | ProGloves | Toolkit | Adrenaline | SmokeGrenade | LockpickSet
  deriving DecidableEq, Repr

/-- `engine/items.rs`: aggregated item effects (the `items::ItemEffects`
struct that drives runtime behaviour). -/
structure ItemEffects where
  qte_window_mult : ℚ
  qte_grace_ms : ℤ
  simon_seq_delta : ℤ
  simon_time_mult : ℚ
  timer_extend_pct : ℚ
  heat_reduce_pct : ℚ
  payout_bonus_pct : ℚ
  success_pp_bonus : ℚ
  heat_mult : ℚ
  fail_penalty_mult : ℚ
  deriving DecidableEq, Repr

/-- `engine/types.rs`: `PlayerProfile` (u64/i64/i64/u32/u32 fields). -/
structure PlayerProfile where
  user_id : ℕ
  balance : ℤ
  heat : ℤ
  thief_skill : ℕ
  pp : ℕ
  deriving DecidableEq, Repr

/-- `engine/types.rs`: `PlayerProfile::default()`. -/
def PlayerProfile.default : PlayerProfile :=
  { user_id := 0, balance := 0, heat := 0, thief_skill := 5, pp := 0 }

/-- `engine/types.rs`: `SoloHeistConfig`. -/
structure SoloHeistConfig where
  mode : Option CrimeMode
  risk : Option Risk
  minigame : MinigameKind
  items : List ItemKey
  deriving DecidableEq, Repr

/-- `engine/types.rs`: `SoloHeistConfig::default()`. -/
def SoloHeistConfig.default : SoloHeistConfig :=
  { mode := none, risk := none, minigame := MinigameKind.Qte, items := [] }

/-- `engine/types.rs`: `HeistOutcome`. -/
structure HeistOutcome where
  success : Bool
  amount_base : ℤ
  amount_final : ℤ
  heat_delta : ℤ
  deriving DecidableEq, Repr

/-- `engine/balance.rs`: `base_chance(mode, risk)`. -/
def base_chance (mode : CrimeMode) (risk : Risk) : ℚ :=
  let r : ℚ := match risk with
    | Risk.Low => 62
    | Risk.Medium => 52
    | Risk.High => 42
    | Risk.Hardcore => 32
  let m : ℚ := match mode with
    | CrimeMode.Standard => 0
    | CrimeMode.Szybki => -3
    | CrimeMode.Ostrozny => 3
    | CrimeMode.Shadow => 2
    | CrimeMode.Hardcore => -6
    | CrimeMode.Ryzykowny => -4
    | CrimeMode.Planowany => 4
    | CrimeMode.Szalony => -8
  rclamp (r + m) 5 95

/-- `engine/balance.rs`: `reward_range(mode, risk)`; the two bounds go
through `(x as f32 * bump) as i64` (truncation). -/
def reward_range (mode : CrimeMode) (risk : Risk) : ℤ × ℤ :=
  let base : ℤ × ℤ := match risk with
    | Risk.Low => (300, 600)
    | Risk.Medium => (600, 1200)
    | Risk.High => (1200, 2400)
    | Risk.Hardcore => (2400, 4200)
  let bump : ℚ := match mode with
    | CrimeMode.Planowany | CrimeMode.Shadow => 1.15
    | CrimeMode.Ostrozny => 1.05
    | CrimeMode.Standard => 1
    | CrimeMode.Ryzykowny => 1.1
    | CrimeMode.Szybki => 0.95
    | CrimeMode.Hardcore => 1.2
    | CrimeMode.Szalony => 1.25
  (rustAsI64 ((base.1 : ℚ) * bump), rustAsI64 ((base.2 : ℚ) * bump))

/-- `engine/balance.rs`: `heat_gain(risk)`. -/
def heat_gain (risk : Risk) : ℤ :=
  match risk with
  | Risk.Low => 4
  | Risk.Medium => 7
  | Risk.High => 10
  | Risk.Hardcore => 14

/-- `engine/balance.rs`: `HeatEffects` struct. -/
structure HeatEffects where
  chance_mult : ℚ
  reward_mult : ℚ
  qte_window_mult : ℚ
  simon_seq_delta : ℤ
  extra_cooldown_secs : ℕ
  ambush_chance_pct : ℕ
  deriving DecidableEq, Repr

/-- `engine/balance.rs`: `base_heat_effects(heat)` — the 5 heat bands on
`heat.min(100)`. -/
def base_heat_effects (heat : ℕ) : HeatEffects :=
  let h := min heat 100
  if h ≤ 24 then
    { chance_mult := 1, reward_mult := 1, qte_window_mult := 1,
      simon_seq_delta := 0, extra_cooldown_secs := 0, ambush_chance_pct := 0 }
  else if h ≤ 49 then
    { chance_mult := 0.95, reward_mult := 0.95, qte_window_mult := 0.95,
      simon_seq_delta := 0, extra_cooldown_secs := 0, ambush_chance_pct := 0 }
  else if h ≤ 74 then
    { chance_mult := 0.90, reward_mult := 0.90, qte_window_mult := 0.85,
      simon_seq_delta := 1, extra_cooldown_secs := 2, ambush_chance_pct := 0 }
  else if h ≤ 89 then
    { chance_mult := 0.80, reward_mult := 0.85, qte_window_mult := 0.75,
      simon_seq_delta := 2, extra_cooldown_secs := 5, ambush_chance_pct := 0 }
  else
    { chance_mult := 0.65, reward_mult := 0.75, qte_window_mult := 0.60,
      simon_seq_delta := 3, extra_cooldown_secs := 10, ambush_chance_pct := 20 }

/-- `engine/balance.rs`: `risk_factor(r)`. -/
def risk_factor (r : Risk) : ℚ :=
  match r with
  | Risk.Low => 0.70
  | Risk.Medium => 1.00
  | Risk.High => 1.25
  | Risk.Hardcore => 1.50

/-- `engine/balance.rs`: `ModeScale` struct. -/
structure ModeScale where
  all : ℚ
  simon : ℚ
  ambush : ℚ
  deriving DecidableEq, Repr

/-- `engine/balance.rs`: `mode_scale(m)`. -/
def mode_scale (m : CrimeMode) : ModeScale :=
  match m with
  | CrimeMode.Standard => { all := 1.00, simon := 1.00, ambush := 1.00 }
  | CrimeMode.Szybki => { all := 1.10, simon := 1.00, ambush := 1.10 }
  | CrimeMode.Ostrozny => { all := 0.85, simon := 0.85, ambush := 0.85 }
  | CrimeMode.Shadow => { all := 0.90, simon := 0.90, ambush := 0.50 }
  | CrimeMode.Hardcore => { all := 1.60, simon := 1.30, ambush := 1.60 }
  | CrimeMode.Ryzykowny => { all := 1.25, simon := 1.15, ambush := 1.40 }
  | CrimeMode.Planowany => { all := 0.90, simon := 0.85, ambush := 0.90 }
  | CrimeMode.Szalony => { all := 1.40, simon := 1.25, ambush := 1.50 }

/-- `engine/balance.rs`: `mix_mult(base_mult, rf, ms)`. -/
def mix_mult (base_mult rf ms : ℚ) : ℚ :=
  let penalty := max (1 - base_mult) 0
  let scaled := rclamp (penalty * rf * ms) 0 0.95
  rclamp (1 - scaled) 0.05 1.25

/-- `engine/balance.rs`: `heat_effects(mode, risk, heat)`. -/
def heat_effects (mode : CrimeMode) (risk : Risk) (heat : ℕ) : HeatEffects :=
  let base := base_heat_effects heat
  let rf := risk_factor risk
  let ms := mode_scale mode
  { chance_mult := mix_mult base.chance_mult rf ms.all,
    reward_mult := mix_mult base.reward_mult rf ms.all,
    qte_window_mult := mix_mult base.qte_window_mult rf ms.all,
    simon_seq_delta :=
      rustIntAsI32 (rustRound ((base.simon_seq_delta : ℚ) * rf * ms.simon)),
    extra_cooldown_secs :=
      min (rustIntAsU64 (rustRound ((base.extra_cooldown_secs : ℚ) * rf * ms.all))) 60,
    ambush_chance_pct :=
      min (rustIntAsU32 (rustRound ((base.ambush_chance_pct : ℚ) * rf * ms.ambush))) 100 }

/-- `engine/items.rs`: `required_pp(k)` from the `ITEM_META` table. -/
def required_pp (k : ItemKey) : ℕ :=
  match k with
  | ItemKey.LockpickSet => 0
  | ItemKey.ProGloves => 5
  | ItemKey.Toolkit => 10
  | ItemKey.SmokeGrenade => 15
  | ItemKey.HackerLaptop => 22
  | ItemKey.Adrenaline => 30

/-- `engine/items.rs`: the accumulator initialisation at the top of
`aggregate` (neutral multipliers 1.0, deltas 0). -/
def aggInit : ItemEffects :=
  { qte_window_mult := 1, qte_grace_ms := 0, simon_seq_delta := 0,
    simon_time_mult := 1, timer_extend_pct := 0, heat_reduce_pct := 0,
    payout_bonus_pct := 0, success_pp_bonus := 0, heat_mult := 1,
    fail_penalty_mult := 1 }

/-- `engine/items.rs`: one iteration of the `for it in items` loop body of
`aggregate` — the per-item contribution folded into the accumulator. -/
def aggStep (eff : ItemEffects) (it : ItemKey) : ItemEffects :=
  match it with
  | ItemKey.HackerLaptop =>
      { eff with qte_grace_ms := eff.qte_grace_ms + 40,
                 qte_window_mult := eff.qte_window_mult * 1.10 }
  | ItemKey.ProGloves =>
      { eff with simon_seq_delta := eff.simon_seq_delta - 1,
                 simon_time_mult := eff.simon_time_mult * 1.05 }
  | ItemKey.Toolkit =>
      { eff with payout_bonus_pct := eff.payout_bonus_pct + 0.05 }
  | ItemKey.Adrenaline =>
      { eff with qte_window_mult := eff.qte_window_mult * 1.05,
                 simon_time_mult := eff.simon_time_mult * 1.08,
                 fail_penalty_mult := eff.fail_penalty_mult * 0.9,
                 heat_mult := eff.heat_mult * 1.05 }
  | ItemKey.SmokeGrenade =>
      { eff with heat_reduce_pct := eff.heat_reduce_pct + 0.08,
                 timer_extend_pct := eff.timer_extend_pct + 0.05 }
  | ItemKey.LockpickSet =>
      { eff with simon_seq_delta := eff.simon_seq_delta - 1 }

/-- `engine/items.rs`: `clamp_effects(&mut e)` — per-field clamp bands. -/
def clamp_effects (e : ItemEffects) : ItemEffects :=
  { qte_window_mult := rclamp e.qte_window_mult 0.9 1.5,
    qte_grace_ms := rclamp e.qte_grace_ms 0 120,
    simon_seq_delta := rclamp e.simon_seq_delta (-2) 0,
    simon_time_mult := rclamp e.simon_time_mult 1 1.3,
    timer_extend_pct := rclamp e.timer_extend_pct 0 0.25,
    heat_reduce_pct := rclamp e.heat_reduce_pct 0 0.15,
    payout_bonus_pct := rclamp e.payout_bonus_pct 0 0.15,
    success_pp_bonus := rclamp e.success_pp_bonus 0 0.15,
    heat_mult := rclamp e.heat_mult 0.8 1.2,
    fail_penalty_mult := rclamp e.fail_penalty_mult 0.7 1.2 }

/-- `engine/items.rs`: `aggregate(items)` — fold the loop body over the
item list, then clamp every field. -/
def aggregate (items : List ItemKey) : ItemEffects :=
  clamp_effects (items.foldl aggStep aggInit)

/-- `engine/types.rs`: `QteSpec`. -/
structure QteSpec where
  target_ms : ℤ
  window_ms : ℤ
  deriving DecidableEq, Repr

/-- `engine/types.rs`: `SimonSpec` (alphabet is a fixed char slice). -/
structure SimonSpec where
  length : ℕ
  alphabet : List Char
  deriving DecidableEq, Repr

/-- `engine/minigames.rs`: `qte_spec_for(risk, window_bonus_ms)`. -/
def qte_spec_for (risk : Risk) (window_bonus_ms : ℤ) : QteSpec :=
  let base_window : ℤ := match risk with
    | Risk.Low => 220
    | Risk.Medium => 150
    | Risk.High => 100
    | Risk.Hardcore => 70
  { target_ms := 1200, window_ms := max (base_window + window_bonus_ms) 40 }

/-- `engine/minigames.rs`: `score_qte(elapsed_ms, spec)`. -/
def score_qte (elapsed_ms : ℤ) (spec : QteSpec) : MinigameResult :=
  let diff := |elapsed_ms - spec.target_ms|
  if diff ≤ spec.window_ms then MinigameResult.Success
  else if diff ≤ spec.window_ms * 2 then MinigameResult.Partial diff
  else MinigameResult.Fail

/-- `engine/minigames.rs`: `simon_spec_for(risk, len_delta)`; the clamped
`i32` length (at least 3) is cast to `usize`. -/
def simon_spec_for (risk : Risk) (len_delta : ℤ) : SimonSpec :=
  let base_len : ℤ := match risk with
    | Risk.Low => 4
    | Risk.Medium => 5
    | Risk.High => 6
    | Risk.Hardcore => 7
  { length := (rclamp (base_len + len_delta) 3 8).toNat,
    alphabet := ['A', 'B', 'C', 'D'] }

/-- `engine/minigames.rs`: `check_simon_step(expected, got)`. -/
def check_simon_step (expected got : Char) : Bool :=
  expected == got

/-- `engine/core.rs`: the success-chance computation of `resolve_solo`
(lines 20–40): base chance, skill bonus, item bonus, minigame adjustment,
final clamp to `[1, 99]`. -/
def soloChance (profile : PlayerProfile) (cfg : SoloHeistConfig)
    (mg : MinigameResult) : ℚ :=
  let mode := cfg.mode.getD CrimeMode.Standard
  let risk := cfg.risk.getD Risk.Medium
  let effects := aggregate cfg.items
  let c0 := base_chance mode risk
  let c1 := c0 + (profile.thief_skill : ℚ) / 50 * 15
  let c2 := c1 + effects.success_pp_bonus
  let c3 := match mg with
    | MinigameResult.Success => c2 + 18
    | MinigameResult.Partial diff => c2 + rclamp (12 - (diff : ℚ) / 25) 0 12
    | MinigameResult.Fail => c2 - 22
    | MinigameResult.NotPlayed => c2 - 10
  rclamp c3 1 99

/-- `engine/core.rs`: `resolve_solo(profile, cfg, mg)`, with the two random
draws (`roll ∈ [0,100)` and the reward from `reward_range`) passed in
explicitly. `pp` is a `u32` updated with `saturating_add(1)`. -/
def resolve_solo (profile : PlayerProfile) (cfg : SoloHeistConfig)
    (mg : MinigameResult) (roll : ℚ) (reward : ℤ) :
    PlayerProfile × HeistOutcome :=
  let risk := cfg.risk.getD Risk.Medium
  let effects := aggregate cfg.items
  let chance := soloChance profile cfg mg
  let success := roll < chance
  let heat := rustAsI64 ((rustRound ((heat_gain risk : ℚ) * effects.heat_mult) : ℚ))
  let abf : ℤ × ℤ × ℤ :=
    if success then (reward, reward, heat)
    else
      let penalty := rustAsI64 ((reward : ℚ) * 0.35 * effects.fail_penalty_mult)
      (-penalty, -penalty, heat + 2)
  let amount_base := abf.1
  let amount_final := abf.2.1
  let heat_delta := abf.2.2
  let profile1 :=
    { profile with
        balance := profile.balance + amount_final,
        heat := profile.heat + heat_delta,
        thief_skill :=
          if profile.thief_skill < 50 then profile.thief_skill + 1
          else profile.thief_skill,
        pp := if success then min (profile.pp + 1) (2 ^ 32 - 1) else profile.pp }
  (profile1,
   { success := success, amount_base := amount_base,
     amount_final := amount_final, heat_delta := heat_delta })

/-- `engine/repo.rs`: the map backing `MemorySoloRepo`, modelled as a
key-indexed partial map over `u64` player ids. -/
structure MemorySoloRepo where
  users : ℕ → Option PlayerProfile

/-- `engine/repo.rs`: `MemorySoloRepo::new()` / `Default` — empty map. -/
def MemorySoloRepo.new : MemorySoloRepo :=
  { users := fun _ => none }

/-- `engine/repo.rs`: `get_or_create(user_id)` — return the stored clone,
or insert a default profile with `user_id` set and return it. -/
def MemorySoloRepo.get_or_create (s : MemorySoloRepo) (user_id : ℕ) :
    PlayerProfile × MemorySoloRepo :=
  match s.users user_id with
  | some v => (v, s)
  | none =>
      let p := { PlayerProfile.default with user_id := user_id }
      (p, { users := fun k => if k = user_id then some p else s.users k })

/-- `engine/repo.rs`: `save(profile)` — upsert keyed by the profile's id. -/
def MemorySoloRepo.save (s : MemorySoloRepo) (profile : PlayerProfile) :
    MemorySoloRepo :=
  { users := fun k => if k = profile.user_id then some profile else s.users k }

/-- The store invariant of claim C10: every stored entry's key equals the
profile's `user_id`. -/
def RepoInv (s : MemorySoloRepo) : Prop :=
  ∀ k p, s.users k = some p → p.user_id = k

/-- The spec's comparator, for comparison with `check_simon_step`:
case-normalized single-symbol equality ("an uppercase expected symbol
matches its lowercase counterpart"). -/
def caseNormalizedEq (expected got : Char) : Bool :=
  expected.toLower == got.toLower

lemma rclamp_mem {α : Type} [LinearOrder α] {x lo hi : α} (h : lo ≤ hi) :
    lo ≤ rclamp x lo hi ∧ rclamp x lo hi ≤ hi := by
  unfold rclamp
  split
  · exact ⟨le_refl _, h⟩
  · split
    · exact ⟨h, le_refl _⟩
    · next h1 h2 => exact ⟨not_lt.mp h1, not_lt.mp h2⟩

lemma rclamp_eq_self {α : Type} [LinearOrder α] {x lo hi : α}
    (h1 : lo ≤ x) (h2 : x ≤ hi) : rclamp x lo hi = x := by
  unfold rclamp
  rw [if_neg (not_lt.mpr h1), if_neg (not_lt.mpr h2)]

lemma foldl_aggStep_success_pp_bonus :
    ∀ (l : List ItemKey) (e : ItemEffects),
      (l.foldl aggStep e).success_pp_bonus = e.success_pp_bonus := by
  intro l
  induction l with
  | nil => intro e; rfl
  | cons it tl ih =>
      intro e
      rw [List.foldl_cons, ih]
      cases it <;> rfl

/-- `items::aggregate` never sets the success-chance bonus: it stays 0
through the fold and through the clamp. -/
lemma aggregate_success_pp_bonus (l : List ItemKey) :
    (aggregate l).success_pp_bonus = 0 := by
  unfold aggregate clamp_effects
  rw [foldl_aggStep_success_pp_bonus]
  norm_num [aggInit, rclamp]

lemma base_chance_bounds (m : CrimeMode) (r : Risk) :
    24 ≤ base_chance m r ∧ base_chance m r ≤ 66 := by
  cases m <;> cases r <;> norm_num [base_chance, rclamp]

/-- C6: for every fixed mode, `base_chance` is strictly decreasing along
Low > Medium > High > Hardcore, and every value lies in `[5, 95]`. -/
theorem C6_base_chance_monotone_and_bounded :
    (∀ m : CrimeMode,
        base_chance m Risk.Medium < base_chance m Risk.Low ∧
        base_chance m Risk.High < base_chance m Risk.Medium ∧
        base_chance m Risk.Hardcore < base_chance m Risk.High) ∧
    (∀ (m : CrimeMode) (r : Risk),
        5 ≤ base_chance m r ∧ base_chance m r ≤ 95) := by
  constructor
  · intro m; cases m <;> norm_num [base_chance, rclamp]
  · intro m r; cases m <;> cases r <;> norm_num [base_chance, rclamp]

/-- C4 counterexample: at (Hardcore mode, Hardcore risk, heat 95) the
ambush chance is 48 — less than half the 100 ceiling, so the min-100 clamp
is neither reached nor nearly reached. -/
theorem C4_counterexample_ambush_is_48 :
    (heat_effects CrimeMode.Hardcore Risk.Hardcore 95).ambush_chance_pct = 48 ∧
    (heat_effects CrimeMode.Hardcore Risk.Hardcore 95).ambush_chance_pct < 90 := by
  constructor <;>
    (norm_num [heat_effects, base_heat_effects, risk_factor, mode_scale, mix_mult,
      rclamp, rustRound, rustIntAsU32, rustIntAsI32, rustIntAsU64] <;> decide)

/-- C4 amended: `heat_effects(Hardcore, Hardcore, 95)` yields
`ambush_chance_pct = 48` — the compounding base 20 × risk 1.50 × mode 1.60
gives 48, well below the ceiling — while the min-100 clamp itself is
respected for every input. -/
theorem C4_amended_ambush_value_and_ceiling :
    (heat_effects CrimeMode.Hardcore Risk.Hardcore 95).ambush_chance_pct = 48 ∧
    (∀ (m : CrimeMode) (r : Risk) (h : ℕ),
        (heat_effects m r h).ambush_chance_pct ≤ 100) := by
  constructor
  · norm_num [heat_effects, base_heat_effects, risk_factor, mode_scale, mix_mult,
      rclamp, rustRound, rustIntAsU32, rustIntAsI32, rustIntAsU64]
    decide
  · intro m r h
    exact min_le_right _ _

/-- C5 counterexample: the uppercase expected symbol `A` does not match its
lowercase counterpart `a` in `check_simon_step`, although the two are equal
after case normalization. -/
theorem C5_counterexample_no_case_normalization :
    check_simon_step 'A' 'a' = false ∧ caseNormalizedEq 'A' 'a' = true := by
  constructor <;> decide

/-- C5 amended: `check_simon_step(expected, got)` implements exact
single-symbol equality — it returns true exactly when the two characters
are equal, with no case normalization (the caller normalizes before the
call). -/
theorem C5_amended_exact_equality :
    ∀ expected got : Char,
      check_simon_step expected got = true ↔ expected = got := by
  intro expected got
  simp [check_simon_step]

/-- The clamp bands of claim C7: every field of an `ItemEffects` value lies
within its documented post-aggregation range. -/
def effectsInBands (e : ItemEffects) : Prop :=
  (0.9 ≤ e.qte_window_mult ∧ e.qte_window_mult ≤ 1.5) ∧
  (0 ≤ e.qte_grace_ms ∧ e.qte_grace_ms ≤ 120) ∧
  (-2 ≤ e.simon_seq_delta ∧ e.simon_seq_delta ≤ 0) ∧
  (1 ≤ e.simon_time_mult ∧ e.simon_time_mult ≤ 1.3) ∧
  (0 ≤ e.timer_extend_pct ∧ e.timer_extend_pct ≤ 0.25) ∧
  (0 ≤ e.heat_reduce_pct ∧ e.heat_reduce_pct ≤ 0.15) ∧
  (0 ≤ e.payout_bonus_pct ∧ e.payout_bonus_pct ≤ 0.15) ∧
  (0 ≤ e.success_pp_bonus ∧ e.success_pp_bonus ≤ 0.15) ∧
  (0.8 ≤ e.heat_mult ∧ e.heat_mult ≤ 1.2) ∧
  (0.7 ≤ e.fail_penalty_mult ∧ e.fail_penalty_mult ≤ 1.2)

/-- C7: for every list of at most 3 distinct item keys, every field of the
aggregated effect bundle lies within its documented clamp band. -/
theorem C7_aggregate_fields_in_bands (l : List ItemKey)
    (_hlen : l.length ≤ 3) (_hnd : l.Nodup) :
    effectsInBands (aggregate l) := by
  unfold effectsInBands aggregate clamp_effects
  refine ⟨rclamp_mem ?_, rclamp_mem ?_, rclamp_mem ?_, rclamp_mem ?_,
    rclamp_mem ?_, rclamp_mem ?_, rclamp_mem ?_, rclamp_mem ?_,
    rclamp_mem ?_, rclamp_mem ?_⟩ <;> norm_num

/-- C7 witness: a concrete 3-item distinct loadout satisfies every band. -/
theorem C7_witness :
    ([ItemKey.Toolkit, ItemKey.ProGloves, ItemKey.Adrenaline] :
        List ItemKey).length ≤ 3 ∧
    ([ItemKey.Toolkit, ItemKey.ProGloves, ItemKey.Adrenaline] :
        List ItemKey).Nodup ∧
    effectsInBands
      (aggregate [ItemKey.Toolkit, ItemKey.ProGloves, ItemKey.Adrenaline]) :=
  ⟨by decide, by decide,
   C7_aggregate_fields_in_bands
     [ItemKey.Toolkit, ItemKey.ProGloves, ItemKey.Adrenaline]
     (by decide) (by decide)⟩

/-- C9: the engine core is total: the reward-range draw in `resolve_solo`
is always over a nonempty range, the Simon spec length (a clamped value
cast to `usize`) is always in `[3, 8]`, the QTE window is always at least
40 (so positive), the minigame adjustment in the chance formula is total
for every `Partial(diff)`, the `heat_effects` fields always fit the `u8` /
`u64` casts they pass through, and the final chance of `resolve_solo` is
always absorbed into `[1, 99]` by the clamp — no input is rejected. -/
theorem C9_engine_totality :
    (∀ (m : CrimeMode) (r : Risk),
        (reward_range m r).1 ≤ (reward_range m r).2) ∧
    (∀ (r : Risk) (d : ℤ),
        3 ≤ (simon_spec_for r d).length ∧ (simon_spec_for r d).length ≤ 8) ∧
    (∀ (r : Risk) (b : ℤ), 40 ≤ (qte_spec_for r b).window_ms) ∧
    (∀ (m : CrimeMode) (r : Risk) (h : ℕ),
        (heat_effects m r h).ambush_chance_pct ≤ 255 ∧
        (heat_effects m r h).extra_cooldown_secs ≤ 60) ∧
    (∀ (p : PlayerProfile) (cfg : SoloHeistConfig) (mg : MinigameResult),
        1 ≤ soloChance p cfg mg ∧ soloChance p cfg mg ≤ 99) := by
  refine ⟨?_, ?_, ?_, ?_, ?_⟩
  · intro m r
    cases m <;> cases r <;>
      norm_num [reward_range, rustAsI64]
  · intro r d
    have key : ∀ z : ℤ, 3 ≤ (rclamp z (3 : ℤ) 8).toNat ∧ (rclamp z (3 : ℤ) 8).toNat ≤ 8 := by
      intro z
      have h := @rclamp_mem ℤ _ z 3 8 (by norm_num)
      omega
    cases r <;> exact key _
  · intro r b
    cases r <;> exact le_max_right _ _
  · intro m r h
    constructor
    · exact le_trans (min_le_right _ _) (by norm_num)
    · exact min_le_right _ _
  · intro p cfg mg
    unfold soloChance
    exact rclamp_mem (by norm_num)

/-- Round to nearest integer, ties to even (the IEEE-754 default rounding
of a real significand). -/
def rne (m : ℚ) : ℤ :=
  if m - ⌊m⌋ < 1/2 then ⌊m⌋
  else if 1/2 < m - ⌊m⌋ then ⌊m⌋ + 1
  else if ⌊m⌋ % 2 = 0 then ⌊m⌋ else ⌊m⌋ + 1

/-- IEEE-754 binary32 rounding of a rational in the normal range: the
24-bit significand is rounded to nearest, ties to even. Models the value
of a Rust `f32` literal and of each intermediate `f32` arithmetic result
(the aggregation values never reach the subnormal or overflow ranges). -/
def roundF32 (q : ℚ) : ℚ :=
  if q < 0 then
    -((rne (-q * 2 ^ ((23 : ℤ) - Int.log 2 (-q))) : ℚ) * 2 ^ (Int.log 2 (-q) - 23))
  else if q = 0 then 0
  else (rne (q * 2 ^ ((23 : ℤ) - Int.log 2 q)) : ℚ) * 2 ^ (Int.log 2 q - 23)

/-- Rust `f32` multiplication: exact product, then binary32 rounding. -/
def mulF32 (a b : ℚ) : ℚ := roundF32 (a * b)

/-- Rust `f32` addition: exact sum, then binary32 rounding. -/
def addF32 (a b : ℚ) : ℚ := roundF32 (a + b)

/-- `engine/items.rs`: the `aggregate` loop body under faithful binary32
semantics — every `*=` / `+=` on an `f32` field rounds its result, and
every decimal literal denotes its nearest binary32 value. Integer fields
are exact. -/
def aggStepF32 (eff : ItemEffects) (it : ItemKey) : ItemEffects :=
  match it with
  | ItemKey.HackerLaptop =>
      { eff with qte_grace_ms := eff.qte_grace_ms + 40,
                 qte_window_mult := mulF32 eff.qte_window_mult (roundF32 1.10) }
  | ItemKey.ProGloves =>
      { eff with simon_seq_delta := eff.simon_seq_delta - 1,
                 simon_time_mult := mulF32 eff.simon_time_mult (roundF32 1.05) }
  | ItemKey.Toolkit =>
      { eff with payout_bonus_pct := addF32 eff.payout_bonus_pct (roundF32 0.05) }
  | ItemKey.Adrenaline =>
      { eff with qte_window_mult := mulF32 eff.qte_window_mult (roundF32 1.05),
                 simon_time_mult := mulF32 eff.simon_time_mult (roundF32 1.08),
                 fail_penalty_mult := mulF32 eff.fail_penalty_mult (roundF32 0.9),
                 heat_mult := mulF32 eff.heat_mult (roundF32 1.05) }
  | ItemKey.SmokeGrenade =>
      { eff with heat_reduce_pct := addF32 eff.heat_reduce_pct (roundF32 0.08),
                 timer_extend_pct := addF32 eff.timer_extend_pct (roundF32 0.05) }
  | ItemKey.LockpickSet =>
      { eff with simon_seq_delta := eff.simon_seq_delta - 1 }

/-- `engine/items.rs`: `clamp_effects` under binary32 semantics: the
comparisons are exact, and each non-dyadic literal bound denotes its
binary32 value (dyadic bounds such as 1.5, 1, 0.25 and the integer bounds
are exactly representable and written as themselves). -/
def clamp_effectsF32 (e : ItemEffects) : ItemEffects :=
  { qte_window_mult := rclamp e.qte_window_mult (roundF32 0.9) 1.5,
    qte_grace_ms := rclamp e.qte_grace_ms 0 120,
    simon_seq_delta := rclamp e.simon_seq_delta (-2) 0,
    simon_time_mult := rclamp e.simon_time_mult 1 (roundF32 1.3),
    timer_extend_pct := rclamp e.timer_extend_pct 0 0.25,
    heat_reduce_pct := rclamp e.heat_reduce_pct 0 (roundF32 0.15),
    payout_bonus_pct := rclamp e.payout_bonus_pct 0 (roundF32 0.15),
    success_pp_bonus := rclamp e.success_pp_bonus 0 (roundF32 0.15),
    heat_mult := rclamp e.heat_mult (roundF32 0.8) (roundF32 1.2),
    fail_penalty_mult := rclamp e.fail_penalty_mult (roundF32 0.7) (roundF32 1.2) }

/-- `engine/items.rs`: `aggregate` under faithful binary32 semantics (the
initial accumulator values 1.0 and 0 are exactly representable, so
`aggInit` is shared with the exact-rational model). -/
def aggregateF32 (items : List ItemKey) : ItemEffects :=
  clamp_effectsF32 (items.foldl aggStepF32 aggInit)

/-- The binary32 effect bundle determined by which items are present
(well-defined for duplicate-free loadouts): each field holds the rounded
fold of the contributions of the present items, in the canonical order. -/
def setAggF32 (bl bg bt ba bs bk : Bool) : ItemEffects :=
  { qte_window_mult :=
      if bl then (if ba then mulF32 (roundF32 1.10) (roundF32 1.05) else roundF32 1.10)
      else (if ba then roundF32 1.05 else 1),
    qte_grace_ms := if bl then 40 else 0,
    simon_seq_delta := (if bg then (-1 : ℤ) else 0) + (if bk then (-1 : ℤ) else 0),
    simon_time_mult :=
      if bg then (if ba then mulF32 (roundF32 1.05) (roundF32 1.08) else roundF32 1.05)
      else (if ba then roundF32 1.08 else 1),
    timer_extend_pct := if bs then roundF32 0.05 else 0,
    heat_reduce_pct := if bs then roundF32 0.08 else 0,
    payout_bonus_pct := if bt then roundF32 0.05 else 0,
    success_pp_bonus := 0,
    heat_mult := if ba then roundF32 1.05 else 1,
    fail_penalty_mult := if ba then roundF32 0.9 else 1 }

lemma intLog2_eq {q : ℚ} {e : ℤ} (hq : 0 < q)
    (h1 : (2 : ℚ) ^ e ≤ q) (h2 : q < (2 : ℚ) ^ (e + 1)) : Int.log 2 q = e := by
  have hb : 1 < (2 : ℕ) := one_lt_two
  have hc : ((2 : ℕ) : ℚ) = (2 : ℚ) := by norm_num
  have hle : e ≤ Int.log 2 q := by
    rw [← Int.zpow_le_iff_le_log hb hq, hc]
    exact h1
  have hlt : Int.log 2 q < e + 1 := by
    rw [← Int.lt_zpow_iff_log_lt hb hq, hc]
    exact h2
  omega

lemma roundF32_eval {q : ℚ} {e n : ℤ} (hq : 0 < q)
    (h1 : (2 : ℚ) ^ e ≤ q) (h2 : q < (2 : ℚ) ^ (e + 1))
    (hn : rne (q * 2 ^ ((23 : ℤ) - e)) = n) :
    roundF32 q = (n : ℚ) * 2 ^ (e - 23) := by
  unfold roundF32
  rw [if_neg (not_lt.mpr hq.le), if_neg hq.ne', intLog2_eq hq h1 h2, hn]

lemma evalLit110 : roundF32 (1.10 : ℚ) = 9227469 / 8388608 := by
  rw [@roundF32_eval (1.10 : ℚ) 0 9227469 (by norm_num) (by norm_num) (by norm_num)
    (by norm_num [rne])]
  norm_num

lemma evalLit105 : roundF32 (1.05 : ℚ) = 4404019 / 4194304 := by
  rw [@roundF32_eval (1.05 : ℚ) 0 8808038 (by norm_num) (by norm_num) (by norm_num)
    (by norm_num [rne])]
  norm_num

lemma evalLit108 : roundF32 (1.08 : ℚ) = 9059697 / 8388608 := by
  rw [@roundF32_eval (1.08 : ℚ) 0 9059697 (by norm_num) (by norm_num) (by norm_num)
    (by norm_num [rne])]
  norm_num

lemma evalLit09 : roundF32 (0.9 : ℚ) = 7549747 / 8388608 := by
  rw [@roundF32_eval (0.9 : ℚ) (-1) 15099494 (by norm_num) (by norm_num) (by norm_num)
    (by norm_num [rne])]
  norm_num

lemma evalLit005 : roundF32 (0.05 : ℚ) = 13421773 / 268435456 := by
  rw [@roundF32_eval (0.05 : ℚ) (-5) 13421773 (by norm_num) (by norm_num) (by norm_num)
    (by norm_num [rne])]
  norm_num

lemma evalLit008 : roundF32 (0.08 : ℚ) = 5368709 / 67108864 := by
  rw [@roundF32_eval (0.08 : ℚ) (-4) 10737418 (by norm_num) (by norm_num) (by norm_num)
    (by norm_num [rne])]
  norm_num

lemma fix110 : roundF32 ((9227469 : ℚ) / 8388608) = 9227469 / 8388608 := by
  rw [@roundF32_eval ((9227469 : ℚ) / 8388608) 0 9227469 (by norm_num) (by norm_num)
    (by norm_num) (by norm_num [rne])]
  norm_num

lemma fix105 : roundF32 ((4404019 : ℚ) / 4194304) = 4404019 / 4194304 := by
  rw [@roundF32_eval ((4404019 : ℚ) / 4194304) 0 8808038 (by norm_num) (by norm_num)
    (by norm_num) (by norm_num [rne])]
  norm_num

lemma fix108 : roundF32 ((9059697 : ℚ) / 8388608) = 9059697 / 8388608 := by
  rw [@roundF32_eval ((9059697 : ℚ) / 8388608) 0 9059697 (by norm_num) (by norm_num)
    (by norm_num) (by norm_num [rne])]
  norm_num

lemma fix09 : roundF32 ((7549747 : ℚ) / 8388608) = 7549747 / 8388608 := by
  rw [@roundF32_eval ((7549747 : ℚ) / 8388608) (-1) 15099494 (by norm_num) (by norm_num)
    (by norm_num) (by norm_num [rne])]
  norm_num

lemma fix005 : roundF32 ((13421773 : ℚ) / 268435456) = 13421773 / 268435456 := by
  rw [@roundF32_eval ((13421773 : ℚ) / 268435456) (-5) 13421773 (by norm_num) (by norm_num)
    (by norm_num) (by norm_num [rne])]
  norm_num

lemma fix008 : roundF32 ((5368709 : ℚ) / 67108864) = 5368709 / 67108864 := by
  rw [@roundF32_eval ((5368709 : ℚ) / 67108864) (-4) 10737418 (by norm_num) (by norm_num)
    (by norm_num) (by norm_num [rne])]
  norm_num

/-- A rounded product of two factors is order-independent (the rounding
applies to the exact, commutative product). -/
lemma mulF32_comm (a b : ℚ) : mulF32 a b = mulF32 b a := by
  rw [mulF32, mulF32, mul_comm]

lemma mulF32_one_110 : mulF32 1 (roundF32 (1.10 : ℚ)) = roundF32 (1.10 : ℚ) := by
  rw [mulF32, one_mul, evalLit110]
  exact fix110

lemma mulF32_one_105 : mulF32 1 (roundF32 (1.05 : ℚ)) = roundF32 (1.05 : ℚ) := by
  rw [mulF32, one_mul, evalLit105]
  exact fix105

lemma mulF32_one_108 : mulF32 1 (roundF32 (1.08 : ℚ)) = roundF32 (1.08 : ℚ) := by
  rw [mulF32, one_mul, evalLit108]
  exact fix108

lemma mulF32_one_09 : mulF32 1 (roundF32 (0.9 : ℚ)) = roundF32 (0.9 : ℚ) := by
  rw [mulF32, one_mul, evalLit09]
  exact fix09

lemma addF32_zero_005 : addF32 0 (roundF32 (0.05 : ℚ)) = roundF32 (0.05 : ℚ) := by
  rw [addF32, zero_add, evalLit005]
  exact fix005

lemma addF32_zero_008 : addF32 0 (roundF32 (0.08 : ℚ)) = roundF32 (0.08 : ℚ) := by
  rw [addF32, zero_add, evalLit008]
  exact fix008

lemma setAggF32_init : setAggF32 false false false false false false = aggInit := by
  simp [setAggF32, aggInit]

lemma stepF32_laptop (bg bt ba bs bk : Bool) :
    aggStepF32 (setAggF32 false bg bt ba bs bk) ItemKey.HackerLaptop
      = setAggF32 true bg bt ba bs bk := by
  cases ba <;>
    simp [aggStepF32, setAggF32, mulF32_one_110, mulF32_comm]

lemma stepF32_gloves (bl bt ba bs bk : Bool) :
    aggStepF32 (setAggF32 bl false bt ba bs bk) ItemKey.ProGloves
      = setAggF32 bl true bt ba bs bk := by
  cases ba <;> cases bk <;>
    simp [aggStepF32, setAggF32, mulF32_one_105, mulF32_comm]

lemma stepF32_toolkit (bl bg ba bs bk : Bool) :
    aggStepF32 (setAggF32 bl bg false ba bs bk) ItemKey.Toolkit
      = setAggF32 bl bg true ba bs bk := by
  simp [aggStepF32, setAggF32, addF32_zero_005]

lemma stepF32_adren (bl bg bt bs bk : Bool) :
    aggStepF32 (setAggF32 bl bg bt false bs bk) ItemKey.Adrenaline
      = setAggF32 bl bg bt true bs bk := by
  cases bl <;> cases bg <;>
    simp [aggStepF32, setAggF32, mulF32_one_105, mulF32_one_108, mulF32_one_09]

lemma stepF32_smoke (bl bg bt ba bk : Bool) :
    aggStepF32 (setAggF32 bl bg bt ba false bk) ItemKey.SmokeGrenade
      = setAggF32 bl bg bt ba true bk := by
  simp [aggStepF32, setAggF32, addF32_zero_005, addF32_zero_008]

lemma stepF32_lockpick (bl bg bt ba bs : Bool) :
    aggStepF32 (setAggF32 bl bg bt ba bs false) ItemKey.LockpickSet
      = setAggF32 bl bg bt ba bs true := by
  cases bg <;> simp [aggStepF32, setAggF32]

/-- Folding the binary32 loop body over a duplicate-free list turns each
present item's flag on, independently of the order of the list. -/
lemma foldF32_char (l : List ItemKey) :
    ∀ bl bg bt ba bs bk : Bool,
      l.Nodup →
      (bl = true → ItemKey.HackerLaptop ∉ l) →
      (bg = true → ItemKey.ProGloves ∉ l) →
      (bt = true → ItemKey.Toolkit ∉ l) →
      (ba = true → ItemKey.Adrenaline ∉ l) →
      (bs = true → ItemKey.SmokeGrenade ∉ l) →
      (bk = true → ItemKey.LockpickSet ∉ l) →
      l.foldl aggStepF32 (setAggF32 bl bg bt ba bs bk)
        = setAggF32 (bl || decide (ItemKey.HackerLaptop ∈ l))
            (bg || decide (ItemKey.ProGloves ∈ l))
            (bt || decide (ItemKey.Toolkit ∈ l))
            (ba || decide (ItemKey.Adrenaline ∈ l))
            (bs || decide (ItemKey.SmokeGrenade ∈ l))
            (bk || decide (ItemKey.LockpickSet ∈ l)) := by
  induction l with
  | nil => intro bl bg bt ba bs bk _ _ _ _ _ _ _; simp
  | cons i t ih =>
      intro bl bg bt ba bs bk hnd h1 h2 h3 h4 h5 h6
      obtain ⟨hit, hnt⟩ := List.nodup_cons.mp hnd
      rw [List.foldl_cons]
      cases i with
      | HackerLaptop =>
          have hb : bl = false := by
            cases bl
            · rfl
            · exact absurd (List.mem_cons_self _ _) (h1 rfl)
          subst hb
          rw [stepF32_laptop,
              ih true bg bt ba bs bk hnt (fun _ => hit)
                (fun h hm => h2 h (List.mem_cons_of_mem _ hm))
                (fun h hm => h3 h (List.mem_cons_of_mem _ hm))
                (fun h hm => h4 h (List.mem_cons_of_mem _ hm))
                (fun h hm => h5 h (List.mem_cons_of_mem _ hm))
                (fun h hm => h6 h (List.mem_cons_of_mem _ hm))]
          simp [List.mem_cons]
      | ProGloves =>
          have hb : bg = false := by
            cases bg
            · rfl
            · exact absurd (List.mem_cons_self _ _) (h2 rfl)
          subst hb
          rw [stepF32_gloves,
              ih bl true bt ba bs bk hnt
                (fun h hm => h1 h (List.mem_cons_of_mem _ hm))
                (fun _ => hit)
                (fun h hm => h3 h (List.mem_cons_of_mem _ hm))
                (fun h hm => h4 h (List.mem_cons_of_mem _ hm))
                (fun h hm => h5 h (List.mem_cons_of_mem _ hm))
                (fun h hm => h6 h (List.mem_cons_of_mem _ hm))]
          simp [List.mem_cons]
      | Toolkit =>
          have hb : bt = false := by
            cases bt
            · rfl
            · exact absurd (List.mem_cons_self _ _) (h3 rfl)
          subst hb
          rw [stepF32_toolkit,
              ih bl bg true ba bs bk hnt
                (fun h hm => h1 h (List.mem_cons_of_mem _ hm))
                (fun h hm => h2 h (List.mem_cons_of_mem _ hm))
                (fun _ => hit)
                (fun h hm => h4 h (List.mem_cons_of_mem _ hm))
                (fun h hm => h5 h (List.mem_cons_of_mem _ hm))
                (fun h hm => h6 h (List.mem_cons_of_mem _ hm))]
          simp [List.mem_cons]
      | Adrenaline =>
          have hb : ba = false := by
            cases ba
            · rfl
            · exact absurd (List.mem_cons_self _ _) (h4 rfl)
          subst hb
          rw [stepF32_adren,
              ih bl bg bt true bs bk hnt
                (fun h hm => h1 h (List.mem_cons_of_mem _ hm))
                (fun h hm => h2 h (List.mem_cons_of_mem _ hm))
                (fun h hm => h3 h (List.mem_cons_of_mem _ hm))
                (fun _ => hit)
                (fun h hm => h5 h (List.mem_cons_of_mem _ hm))
                (fun h hm => h6 h (List.mem_cons_of_mem _ hm))]
          simp [List.mem_cons]
      | SmokeGrenade =>
          have hb : bs = false := by
            cases bs
            · rfl
            · exact absurd (List.mem_cons_self _ _) (h5 rfl)
          subst hb
          rw [stepF32_smoke,
              ih bl bg bt ba true bk hnt
                (fun h hm => h1 h (List.mem_cons_of_mem _ hm))
                (fun h hm => h2 h (List.mem_cons_of_mem _ hm))
                (fun h hm => h3 h (List.mem_cons_of_mem _ hm))
                (fun h hm => h4 h (List.mem_cons_of_mem _ hm))
                (fun _ => hit)
                (fun h hm => h6 h (List.mem_cons_of_mem _ hm))]
          simp [List.mem_cons]
      | LockpickSet =>
          have hb : bk = false := by
            cases bk
            · rfl
            · exact absurd (List.mem_cons_self _ _) (h6 rfl)
          subst hb
          rw [stepF32_lockpick,
              ih bl bg bt ba bs true hnt
                (fun h hm => h1 h (List.mem_cons_of_mem _ hm))
                (fun h hm => h2 h (List.mem_cons_of_mem _ hm))
                (fun h hm => h3 h (List.mem_cons_of_mem _ hm))
                (fun h hm => h4 h (List.mem_cons_of_mem _ hm))
                (fun h hm => h5 h (List.mem_cons_of_mem _ hm))
                (fun _ => hit)]
          simp [List.mem_cons]

lemma evalP1 : mulF32 ((4404019 : ℚ) / 4194304) ((4404019 : ℚ) / 4194304)
    = 9248439 / 8388608 := by
  rw [mulF32,
      @roundF32_eval ((4404019 : ℚ) / 4194304 * ((4404019 : ℚ) / 4194304)) 0 9248439
        (by norm_num) (by norm_num) (by norm_num) (by norm_num [rne])]
  norm_num

lemma evalP2 : mulF32 ((9248439 : ℚ) / 8388608) ((9227469 : ℚ) / 8388608)
    = 10173283 / 8388608 := by
  rw [mulF32,
      @roundF32_eval ((9248439 : ℚ) / 8388608 * ((9227469 : ℚ) / 8388608)) 0 10173283
        (by norm_num) (by norm_num) (by norm_num) (by norm_num [rne])]
  norm_num

lemma evalP3 : mulF32 ((9227469 : ℚ) / 8388608) ((4404019 : ℚ) / 4194304)
    = 4844421 / 4194304 := by
  rw [mulF32,
      @roundF32_eval ((9227469 : ℚ) / 8388608 * ((4404019 : ℚ) / 4194304)) 0 9688842
        (by norm_num) (by norm_num) (by norm_num) (by norm_num [rne])]
  norm_num

lemma evalP4 : mulF32 ((4844421 : ℚ) / 4194304) ((4404019 : ℚ) / 4194304)
    = 10173284 / 8388608 := by
  rw [mulF32,
      @roundF32_eval ((4844421 : ℚ) / 4194304 * ((4404019 : ℚ) / 4194304)) 0 10173284
        (by norm_num) (by norm_num) (by norm_num) (by norm_num [rne])]
  norm_num

/-- The window multiplier of the duplicate loadout folded as
Adrenaline, Adrenaline, HackerLaptop: `fl(fl(fl(1·1.05)·1.05)·1.10)`. -/
lemma windowF32_dup_AAH :
    (aggregateF32 [ItemKey.Adrenaline, ItemKey.Adrenaline,
        ItemKey.HackerLaptop]).qte_window_mult = 10173283 / 8388608 := by
  simp only [aggregateF32, clamp_effectsF32, List.foldl_cons, List.foldl_nil,
    aggStepF32, aggInit]
  rw [mulF32_one_105, evalLit105, evalP1, evalLit110, evalP2, evalLit09]
  rw [rclamp_eq_self (by norm_num) (by norm_num)]

/-- The window multiplier of the same loadout folded as
HackerLaptop, Adrenaline, Adrenaline: `fl(fl(fl(1·1.10)·1.05)·1.05)` —
one ULP higher. -/
lemma windowF32_dup_HAA :
    (aggregateF32 [ItemKey.HackerLaptop, ItemKey.Adrenaline,
        ItemKey.Adrenaline]).qte_window_mult = 10173284 / 8388608 := by
  simp only [aggregateF32, clamp_effectsF32, List.foldl_cons, List.foldl_nil,
    aggStepF32, aggInit]
  rw [mulF32_one_110, evalLit110, evalLit105, evalP3, evalP4, evalLit09]
  rw [rclamp_eq_self (by norm_num) (by norm_num)]

/-- C8 counterexample: under faithful binary32 semantics, the duplicate
loadout [Adrenaline, Adrenaline, HackerLaptop] and its permutation
[HackerLaptop, Adrenaline, Adrenaline] aggregate to different effect
bundles: the window multipliers 10173283/2^23 and 10173284/2^23 are one
ULP apart (both inside the clamp band), so `aggregate` is not
order-independent for every list and permutation. -/
theorem C8_counterexample_f32_order_dependence :
    ([ItemKey.Adrenaline, ItemKey.Adrenaline, ItemKey.HackerLaptop] :
        List ItemKey).Perm
      [ItemKey.HackerLaptop, ItemKey.Adrenaline, ItemKey.Adrenaline] ∧
    (aggregateF32 [ItemKey.Adrenaline, ItemKey.Adrenaline,
        ItemKey.HackerLaptop]).qte_window_mult = 10173283 / 8388608 ∧
    (aggregateF32 [ItemKey.HackerLaptop, ItemKey.Adrenaline,
        ItemKey.Adrenaline]).qte_window_mult = 10173284 / 8388608 ∧
    aggregateF32 [ItemKey.Adrenaline, ItemKey.Adrenaline, ItemKey.HackerLaptop]
      ≠ aggregateF32 [ItemKey.HackerLaptop, ItemKey.Adrenaline,
          ItemKey.Adrenaline] := by
  refine ⟨by decide, windowF32_dup_AAH, windowF32_dup_HAA, ?_⟩
  intro h
  have hw := congrArg ItemEffects.qte_window_mult h
  rw [windowF32_dup_AAH, windowF32_dup_HAA] at hw
  norm_num at hw

/-- C8 amended: for duplicate-free item lists (every legal loadout is one),
`aggregate` is order-independent under faithful binary32 semantics: any
permutation of a duplicate-free list aggregates to the same effect bundle,
field for field — each field sees each present item's contribution exactly
once, and a single rounded product or sum of two factors commutes. -/
theorem C8_amended_order_independent_distinct (l l2 : List ItemKey)
    (hnd : l.Nodup) (hp : l.Perm l2) :
    aggregateF32 l = aggregateF32 l2 := by
  unfold aggregateF32
  congr 1
  rw [← setAggF32_init,
      foldF32_char l false false false false false false hnd
        (fun h => nomatch h) (fun h => nomatch h) (fun h => nomatch h)
        (fun h => nomatch h) (fun h => nomatch h) (fun h => nomatch h),
      foldF32_char l2 false false false false false false (hp.nodup hnd)
        (fun h => nomatch h) (fun h => nomatch h) (fun h => nomatch h)
        (fun h => nomatch h) (fun h => nomatch h) (fun h => nomatch h)]
  simp only [Bool.false_or]
  rw [decide_eq_decide.mpr (hp.mem_iff), decide_eq_decide.mpr (hp.mem_iff),
      decide_eq_decide.mpr (hp.mem_iff), decide_eq_decide.mpr (hp.mem_iff),
      decide_eq_decide.mpr (hp.mem_iff), decide_eq_decide.mpr (hp.mem_iff)]

/-- C8 witness: a concrete duplicate-free permuted pair aggregates equally
under binary32 semantics. -/
theorem C8_distinct_witness :
    ([ItemKey.Toolkit, ItemKey.ProGloves, ItemKey.Adrenaline] :
        List ItemKey).Nodup ∧
    ([ItemKey.Toolkit, ItemKey.ProGloves, ItemKey.Adrenaline] :
        List ItemKey).Perm
      [ItemKey.Adrenaline, ItemKey.Toolkit, ItemKey.ProGloves] ∧
    aggregateF32 [ItemKey.Toolkit, ItemKey.ProGloves, ItemKey.Adrenaline] =
      aggregateF32 [ItemKey.Adrenaline, ItemKey.Toolkit, ItemKey.ProGloves] :=
  ⟨by decide, by decide,
   C8_amended_order_independent_distinct
     [ItemKey.Toolkit, ItemKey.ProGloves, ItemKey.Adrenaline]
     [ItemKey.Adrenaline, ItemKey.Toolkit, ItemKey.ProGloves]
     (by decide) (by decide)⟩

/-- C10: `MemorySoloRepo` keeps every stored profile keyed by its own
`user_id`: the invariant holds for the empty store, is preserved by
`get_or_create` and `save`, and `get_or_create(id)` always returns a
profile whose `user_id` is `id`. -/
theorem C10_repo_key_invariant :
    RepoInv MemorySoloRepo.new ∧
    (∀ (s : MemorySoloRepo) (id : ℕ), RepoInv s →
        (s.get_or_create id).1.user_id = id ∧
        RepoInv (s.get_or_create id).2) ∧
    (∀ (s : MemorySoloRepo) (p : PlayerProfile), RepoInv s →
        RepoInv (s.save p)) := by
  refine ⟨?_, ?_, ?_⟩
  · intro k p h
    exact Option.noConfusion h
  · intro s id hs
    unfold MemorySoloRepo.get_or_create
    cases hu : s.users id with
    | some v => exact ⟨hs id v hu, hs⟩
    | none =>
        constructor
        · rfl
        · intro k q hq
          by_cases hk : k = id
          · subst hk
            simp only [if_pos rfl] at hq
            cases hq
            rfl
          · simp only [if_neg hk] at hq
            exact hs k q hq
  · intro s p hs k q hq
    by_cases hk : k = p.user_id
    · subst hk
      simp only [MemorySoloRepo.save, if_pos rfl] at hq
      cases hq
      rfl
    · simp only [MemorySoloRepo.save, if_neg hk] at hq
      exact hs k q hq

/-- C10 witness: on the empty store, `get_or_create 7` returns a profile
with `user_id = 7` and the invariant still holds afterwards. -/
theorem C10_witness :
    RepoInv MemorySoloRepo.new ∧
    (MemorySoloRepo.new.get_or_create 7).1.user_id = 7 :=
  ⟨fun _ _ h => Option.noConfusion h,
   (C10_repo_key_invariant.2.1 MemorySoloRepo.new 7
     (fun _ _ h => Option.noConfusion h)).1⟩

/-- C1 counterexample: with no items (`fail_penalty_mult = 1`) and drawn
reward 602, a failing roll (90 ≥ chance 31.5) applies a penalty of 210 —
`602 * 0.35 = 210.7` truncated by the `as i64` cast — while rounding to the
nearest integer, as the claim states, would give 211. -/
theorem C1_counterexample_penalty_truncated :
    soloChance PlayerProfile.default SoloHeistConfig.default MinigameResult.Fail ≤ 90 ∧
    (resolve_solo PlayerProfile.default SoloHeistConfig.default
        MinigameResult.Fail 90 602).2.success = false ∧
    (resolve_solo PlayerProfile.default SoloHeistConfig.default
        MinigameResult.Fail 90 602).2.amount_final = -210 ∧
    rustRound ((602 : ℚ) * 0.35 *
        (aggregate SoloHeistConfig.default.items).fail_penalty_mult) = 211 := by
  refine ⟨?_, ?_, ?_, ?_⟩ <;>
    norm_num [resolve_solo, soloChance, base_chance, aggregate, aggInit, aggStep,
      clamp_effects, rclamp, heat_gain, rustRound, rustAsI64,
      PlayerProfile.default, SoloHeistConfig.default]

/-- C1 amended: whenever the success roll fails (`roll ≥` clamped chance),
the penalty equals `reward * 0.35 * effects.fail_penalty_mult` truncated
toward zero (the `as i64` cast), not rounded; `amount_base = amount_final
= -penalty`; and the heat delta is exactly 2 above the heat delta of the
same call when the roll succeeds — for every profile, config, and drawn
reward. -/
theorem C1_amended_fail_branch (p : PlayerProfile) (cfg : SoloHeistConfig)
    (mg : MinigameResult) (roll roll' : ℚ) (reward : ℤ)
    (hfail : soloChance p cfg mg ≤ roll) (hsucc : roll' < soloChance p cfg mg) :
    (resolve_solo p cfg mg roll reward).2.amount_base
        = -(rustAsI64 ((reward : ℚ) * 0.35 * (aggregate cfg.items).fail_penalty_mult)) ∧
    (resolve_solo p cfg mg roll reward).2.amount_final
        = (resolve_solo p cfg mg roll reward).2.amount_base ∧
    (resolve_solo p cfg mg roll reward).2.heat_delta
        = (resolve_solo p cfg mg roll' reward).2.heat_delta + 2 := by
  have hnf : ¬(roll < soloChance p cfg mg) := not_lt.mpr hfail
  simp [resolve_solo, hnf, hsucc]

/-- C1 witness: the amended fail-branch law at the default profile and
config, failing roll 90, succeeding roll 0, drawn reward 602. -/
theorem C1_witness :
    soloChance PlayerProfile.default SoloHeistConfig.default MinigameResult.Fail ≤ 90 ∧
    0 < soloChance PlayerProfile.default SoloHeistConfig.default MinigameResult.Fail ∧
    ((resolve_solo PlayerProfile.default SoloHeistConfig.default
        MinigameResult.Fail 90 602).2.amount_base
      = -(rustAsI64 ((602 : ℚ) * 0.35 *
          (aggregate SoloHeistConfig.default.items).fail_penalty_mult)) ∧
     (resolve_solo PlayerProfile.default SoloHeistConfig.default
        MinigameResult.Fail 90 602).2.amount_final
      = (resolve_solo PlayerProfile.default SoloHeistConfig.default
          MinigameResult.Fail 90 602).2.amount_base ∧
     (resolve_solo PlayerProfile.default SoloHeistConfig.default
        MinigameResult.Fail 90 602).2.heat_delta
      = (resolve_solo PlayerProfile.default SoloHeistConfig.default
          MinigameResult.Fail 0 602).2.heat_delta + 2) :=
  ⟨by norm_num [soloChance, base_chance, aggregate, aggInit, clamp_effects, rclamp,
      PlayerProfile.default, SoloHeistConfig.default],
   by norm_num [soloChance, base_chance, aggregate, aggInit, clamp_effects, rclamp,
      PlayerProfile.default, SoloHeistConfig.default],
   C1_amended_fail_branch PlayerProfile.default SoloHeistConfig.default
     MinigameResult.Fail 90 0 602
     (by norm_num [soloChance, base_chance, aggregate, aggInit, clamp_effects, rclamp,
        PlayerProfile.default, SoloHeistConfig.default])
     (by norm_num [soloChance, base_chance, aggregate, aggInit, clamp_effects, rclamp,
        PlayerProfile.default, SoloHeistConfig.default])⟩

/-- C2 counterexample: at `thief_skill = 300` (allowed by the `u32` field
but outside the documented 0..50 cap) the clamp saturates both variants at
99, so the Success-case chance is not strictly greater than the
Fail-case chance. -/
theorem C2_counterexample_chance_saturation :
    soloChance { PlayerProfile.default with thief_skill := 300 }
        SoloHeistConfig.default MinigameResult.Success = 99 ∧
    soloChance { PlayerProfile.default with thief_skill := 300 }
        SoloHeistConfig.default MinigameResult.Fail = 99 ∧
    ¬ (soloChance { PlayerProfile.default with thief_skill := 300 }
          SoloHeistConfig.default MinigameResult.Fail <
        soloChance { PlayerProfile.default with thief_skill := 300 }
          SoloHeistConfig.default MinigameResult.Success) := by
  refine ⟨?_, ?_, ?_⟩ <;>
    norm_num [soloChance, base_chance, aggregate, aggInit, clamp_effects, rclamp,
      PlayerProfile.default, SoloHeistConfig.default]

/-- C2 amended: for every profile respecting the documented skill cap
(`thief_skill ≤ 50`) and every config, the clamped Fail-case chance is at
least 1, strictly below the clamped Success-case chance, which is at most
99 — so every roll in `[0,100)` that succeeds in the Fail case succeeds in
the Success case, and rolls in the nonempty gap succeed only in the
Success case. -/
theorem C2_amended_success_chance_strictly_higher (p : PlayerProfile)
    (cfg : SoloHeistConfig) (hsk : p.thief_skill ≤ 50) :
    1 ≤ soloChance p cfg MinigameResult.Fail ∧
    soloChance p cfg MinigameResult.Fail < soloChance p cfg MinigameResult.Success ∧
    soloChance p cfg MinigameResult.Success ≤ 99 := by
  have hb := base_chance_bounds (cfg.mode.getD CrimeMode.Standard)
    (cfg.risk.getD Risk.Medium)
  have hbonus := aggregate_success_pp_bonus cfg.items
  have hskq : (p.thief_skill : ℚ) ≤ 50 := by exact_mod_cast hsk
  have hskq0 : (0 : ℚ) ≤ (p.thief_skill : ℚ) := Nat.cast_nonneg _
  simp only [soloChance, hbonus]
  set b := base_chance (cfg.mode.getD CrimeMode.Standard)
    (cfg.risk.getD Risk.Medium) with hbdef
  set s : ℚ := (p.thief_skill : ℚ) / 50 * 15 with hsdef
  have hs0 : 0 ≤ s := by positivity
  have hs15 : s ≤ 15 := by rw [hsdef]; linarith
  rw [rclamp_eq_self (by linarith [hb.1]) (by linarith [hb.2]),
      rclamp_eq_self (by linarith [hb.1]) (by linarith [hb.2])]
  refine ⟨by linarith [hb.1], by linarith, by linarith [hb.2]⟩

/-- C2 witness: the amended strict-chance law at the default profile
(skill 5) and default config. -/
theorem C2_witness :
    PlayerProfile.default.thief_skill ≤ 50 ∧
    (1 ≤ soloChance PlayerProfile.default SoloHeistConfig.default MinigameResult.Fail ∧
     soloChance PlayerProfile.default SoloHeistConfig.default MinigameResult.Fail <
       soloChance PlayerProfile.default SoloHeistConfig.default MinigameResult.Success ∧
     soloChance PlayerProfile.default SoloHeistConfig.default MinigameResult.Success ≤ 99) :=
  ⟨by decide,
   C2_amended_success_chance_strictly_higher PlayerProfile.default
     SoloHeistConfig.default (by decide)⟩

/-- C3 counterexample: at the boundary `pp = u32::MAX` a successful heist
leaves `pp` unchanged (saturating add), so the returned `pp` does not
exceed the input by exactly 1 although the outcome's success flag is
true. -/
theorem C3_counterexample_pp_saturation :
    (resolve_solo { PlayerProfile.default with pp := 2 ^ 32 - 1 }
        SoloHeistConfig.default MinigameResult.Success 0 600).2.success = true ∧
    (resolve_solo { PlayerProfile.default with pp := 2 ^ 32 - 1 }
        SoloHeistConfig.default MinigameResult.Success 0 600).1.pp = 2 ^ 32 - 1 ∧
    ¬ ((resolve_solo { PlayerProfile.default with pp := 2 ^ 32 - 1 }
        SoloHeistConfig.default MinigameResult.Success 0 600).1.pp
          = (2 ^ 32 - 1) + 1) := by
  refine ⟨?_, ?_, ?_⟩ <;>
    norm_num [resolve_solo, soloChance, base_chance, aggregate, aggInit, aggStep,
      clamp_effects, rclamp, heat_gain, rustRound, rustAsI64,
      PlayerProfile.default, SoloHeistConfig.default]

/-- C3 amended: for every input with `pp` strictly below `u32::MAX`,
`resolve_solo` never decreases `thief_skill` or `pp`, the returned `pp`
exceeds the input by exactly 1 iff the outcome's success flag is true, and
`thief_skill` increases by exactly 1 below 50 and is unchanged at 50; at
`pp = u32::MAX` a success leaves `pp` at `u32::MAX` (saturating add). -/
theorem C3_amended_progress_monotonicity (p : PlayerProfile)
    (cfg : SoloHeistConfig) (mg : MinigameResult) (roll : ℚ) (reward : ℤ)
    (hpp : p.pp < 2 ^ 32 - 1) :
    p.thief_skill ≤ (resolve_solo p cfg mg roll reward).1.thief_skill ∧
    p.pp ≤ (resolve_solo p cfg mg roll reward).1.pp ∧
    ((resolve_solo p cfg mg roll reward).1.pp = p.pp + 1 ↔
      (resolve_solo p cfg mg roll reward).2.success = true) ∧
    (resolve_solo p cfg mg roll reward).1.thief_skill
        = (if p.thief_skill < 50 then p.thief_skill + 1 else p.thief_skill) := by
  by_cases hs : roll < soloChance p cfg mg <;>
    by_cases hsk : p.thief_skill < 50 <;>
      simp [resolve_solo, hs, hsk] <;> omega

/-- C3 witness: the amended progress law at the default profile (pp 0,
skill 5), default config, successful minigame, roll 0, reward 600. -/
theorem C3_witness :
    PlayerProfile.default.pp < 2 ^ 32 - 1 ∧
    (PlayerProfile.default.thief_skill ≤
       (resolve_solo PlayerProfile.default SoloHeistConfig.default
         MinigameResult.Success 0 600).1.thief_skill ∧
     PlayerProfile.default.pp ≤
       (resolve_solo PlayerProfile.default SoloHeistConfig.default
         MinigameResult.Success 0 600).1.pp ∧
     ((resolve_solo PlayerProfile.default SoloHeistConfig.default
         MinigameResult.Success 0 600).1.pp = PlayerProfile.default.pp + 1 ↔
       (resolve_solo PlayerProfile.default SoloHeistConfig.default
         MinigameResult.Success 0 600).2.success = true) ∧
     (resolve_solo PlayerProfile.default SoloHeistConfig.default
         MinigameResult.Success 0 600).1.thief_skill
       = (if PlayerProfile.default.thief_skill < 50 then
            PlayerProfile.default.thief_skill + 1
          else PlayerProfile.default.thief_skill)) :=
  ⟨by decide,
   C3_amended_progress_monotonicity PlayerProfile.default SoloHeistConfig.default
     MinigameResult.Success 0 600 (by decide)⟩

end Tigris
